import Mathlib

/-!
Shallow embedding of a small survey backend (FastAPI + pydantic sources:
`main.py`, `schemas.py`).  The persistence collaborator (`database.py`,
not part of the sources) is abstracted as a function parameter; the pieces
of its contract that the handlers rely on are modelled from the spec.
-/

namespace SurveyBackend

/-- JSON-like values, the shape of request bodies crossing the boundary. -/
inductive Json where
  | null
  | bool (b : Bool)
  | num (n : Int)
  | str (s : String)
  | arr (xs : List Json)
  | obj (fields : List (String × Json))

/-- Embeds `schemas.SurveyQuestion` (pydantic model): id, topic, text,
a type tag among scale / single / text, and an optional option list. -/
structure SurveyQuestion where
  id : String
  topic : String
  text : String
  type : String
  options : Option (List String)
deriving DecidableEq

/-- Embeds `schemas.Survey`. -/
structure Survey where
  survey_id : String
  title : String
  description : String
  questions : List SurveyQuestion
deriving DecidableEq

/-- Embeds `main.PRESET_SURVEY`, the single static survey of the catalog. -/
def PRESET_SURVEY : Survey :=
  { survey_id := "major-topics-001"
    title := "General Interests & Lifestyle Survey"
    description := "A quick survey covering technology, health, finance, education, travel and entertainment."
    questions :=
      [ { id := "q1", topic := "technology", text := "How comfortable are you with new technology?", type := "scale", options := none }
      , { id := "q2", topic := "technology", text := "Which platform do you use the most?", type := "single", options := some ["iOS", "Android", "Windows", "macOS", "Linux"] }
      , { id := "q3", topic := "health", text := "How many days a week do you exercise?", type := "single", options := some ["0", "1-2", "3-4", "5+"] }
      , { id := "q4", topic := "finance", text := "How do you primarily budget your expenses?", type := "single", options := some ["App", "Spreadsheet", "Pen & Paper", "I don't budget"] }
      , { id := "q5", topic := "education", text := "Highest level of education completed?", type := "single", options := some ["High School", "Associate", "Bachelor's", "Master's", "Doctorate"] }
      , { id := "q6", topic := "travel", text := "How often do you travel for leisure?", type := "single", options := some ["Rarely", "1-2x/yr", "3-4x/yr", "5+ / yr"] }
      , { id := "q7", topic := "entertainment", text := "Favorite entertainment format?", type := "single", options := some ["Movies", "Series", "Books", "Gaming", "Music Concerts"] }
      , { id := "q8", topic := "technology", text := "What tech topic are you most curious about right now?", type := "text", options := none }
      ] }

/-- Embeds the handler `main.get_survey`: no input, returns the preset survey. -/
def get_survey (_ : Unit) : Survey := PRESET_SURVEY

/-- Embeds `main.SubmitPayload` (pydantic model): a survey id string and a
list of mapping objects (Python `List[dict]`, each dict a field list). -/
structure SubmitPayload where
  survey_id : String
  answers : List (List (String × Json))

/-- Request metadata available to the handler: the `user-agent` header and
the client network address, both possibly absent. -/
structure RequestCtx where
  userAgent : Option String
  clientHost : Option String

/-- The record `main.submit_survey` hands to `create_document`. -/
structure SurveyDoc where
  survey_id : String
  answers : List (List (String × Json))
  user_agent : Option String
  ip : Option String

/-- Outcome of a handler call: a success body or an HTTPException. -/
inductive SubmitResult where
  | ok (id : String)
  | httpError (status : Nat) (detail : String)

/-- The document built inside `main.submit_survey` before the insert. -/
def mkDoc (payload : SubmitPayload) (req : RequestCtx) : SurveyDoc :=
  { survey_id := payload.survey_id
    answers := payload.answers
    user_agent := req.userAgent
    ip := req.clientHost }

/-- Embeds `main.submit_survey`.  The persistence collaborator
`create_document` (from `database.py`, absent from the sources) is a
parameter returning either a document id or a raised error message.
Alongside the HTTP result we return the list of insert calls issued, so
that call counts are part of the model. -/
def submit_survey
    (create_document : String → SurveyDoc → Except String String)
    (payload : SubmitPayload) (req : RequestCtx) :
    SubmitResult × List (String × SurveyDoc) :=
  if payload.survey_id ≠ PRESET_SURVEY.survey_id then
    (.httpError 400 "Invalid survey id", [])
  else
    let doc := mkDoc payload req
    match create_document "surveyresponse" doc with
    | .ok doc_id => (.ok doc_id, [("surveyresponse", doc)])
    | .error e => (.httpError 500 ("Database error: " ++ e), [("surveyresponse", doc)])

/-- Looks a key up in a JSON object's field list. -/
def lookupField (fields : List (String × Json)) (key : String) : Option Json :=
  match fields with
  | [] => none
  | (k, v) :: rest => if k = key then some v else lookupField rest key

/-- Extracts the field lists when every element is a mapping object. -/
def allObjs (xs : List Json) : Option (List (List (String × Json))) :=
  match xs with
  | [] => some []
  | .obj f :: rest =>
    match allObjs rest with
    | some fs => some (f :: fs)
    | none => none
  | _ :: _ => none

/-- Modelled from the spec: the boundary validation that pydantic/FastAPI
perform on a request body against `main.SubmitPayload` (framework code,
absent from the sources).  Spec: "Fails with a `ValidationError` kind when
a required field is absent or of the wrong primitive type; this must
surface as a client-facing error, not a silent default." -/
def parseSubmitPayload (body : Json) : Except String SubmitPayload :=
  match body with
  | .obj fields =>
    match lookupField fields "survey_id" with
    | some (.str sid) =>
      match lookupField fields "answers" with
      | some (.arr xs) =>
        match allObjs xs with
        | some answers => .ok { survey_id := sid, answers := answers }
        | none => .error "ValidationError: answers items must be mapping objects"
      | some _ => .error "ValidationError: answers must be a sequence"
      | none => .error "ValidationError: answers field required"
    | some _ => .error "ValidationError: survey_id must be a string"
    | none => .error "ValidationError: survey_id field required"
  | _ => .error "ValidationError: body must be a mapping object"

/-- The submit route as the client sees it: boundary validation first, the
handler body only on a validated payload. -/
def handle_submit
    (create_document : String → SurveyDoc → Except String String)
    (body : Json) (req : RequestCtx) :
    SubmitResult × List (String × SurveyDoc) :=
  match parseSubmitPayload body with
  | .error e => (.httpError 422 e, [])
  | .ok payload => submit_survey create_document payload req

/-- State of the `database` module as seen by `main.test_database`:
the import may fail with `ImportError`, fail with another exception, or
succeed with `db` being `None` or a handle. -/
structure DbHandle where
  name : Option String
  list_collection_names : Except String (List String)

inductive DbModule where
  | importMissing
  | importFails (msg : String)
  | loaded (db : Option DbHandle)

/-- The two configuration environment values read at the end of
`main.test_database`; `none` for unset, and Python truthiness makes the
empty string count as unset. -/
structure Env where
  DATABASE_URL : Option String
  DATABASE_NAME : Option String

def truthy : Option String → Bool
  | none => false
  | some s => s ≠ ""

/-- Embeds the response dict built by `main.test_database`; the url and
name fields start as `None` in the source, hence `Option String`. -/
structure DiagResponse where
  backend : String
  database : String
  database_url : Option String
  database_name : Option String
  connection_status : String
  collections : List String

/-- Embeds `main.test_database`, the GET /test diagnostics handler. -/
def test_database (m : DbModule) (env : Env) : DiagResponse :=
  let r : DiagResponse :=
    { backend := "✅ Running"
      database := "❌ Not Available"
      database_url := none
      database_name := none
      connection_status := "Not Connected"
      collections := [] }
  let r :=
    match m with
    | .importMissing =>
      { r with database := "❌ Database module not found (run enable-database first)" }
    | .importFails e =>
      { r with database := "❌ Error: " ++ e.take 50 }
    | .loaded none =>
      { r with database := "⚠️  Available but not initialized" }
    | .loaded (some db) =>
      let r :=
        { r with
            database := "✅ Available"
            database_url := some "✅ Configured"
            database_name := some (match db.name with
              | some n => n
              | none => "✅ Connected")
            connection_status := "Connected" }
      match db.list_collection_names with
      | .ok collections =>
        { r with collections := collections.take 10, database := "✅ Connected & Working" }
      | .error e =>
        { r with database := "⚠️  Connected but Error: " ++ e.take 50 }
  { r with
      database_url := some (if truthy env.DATABASE_URL then "✅ Set" else "❌ Not Set")
      database_name := some (if truthy env.DATABASE_NAME then "✅ Set" else "❌ Not Set") }

/-- A string that starts with a prefix `p` whose remainder of the data
differs is a different string; used to separate the diagnostic statuses. -/
theorem append_ne_of_data_take (p t s : String)
    (h : s.data.take p.data.length ≠ p.data) : p ++ t ≠ s := by
  intro he
  apply h
  rw [← he, String.data_append, List.take_append_eq_append_take,
      List.take_length, Nat.sub_self, List.take_zero, List.append_nil]

/-- C1: for every submission payload whose survey_id equals the catalog
survey's identifier, submit returns a success status with a non-empty
document identifier (the collaborator's generated id, non-empty per its
contract), create_document is invoked exactly once, and the answers list
is passed through unchanged. -/
theorem submit_valid_inserts_once
    (create_document : String → SurveyDoc → Except String String)
    (payload : SubmitPayload) (req : RequestCtx) (i : String)
    (hid : payload.survey_id = PRESET_SURVEY.survey_id)
    (hc : create_document "surveyresponse" (mkDoc payload req) = .ok i)
    (hne : i ≠ "") :
    (submit_survey create_document payload req).1 = .ok i ∧ i ≠ "" ∧
    (submit_survey create_document payload req).2 =
      [("surveyresponse", mkDoc payload req)] ∧
    (mkDoc payload req).answers = payload.answers := by
  refine ⟨?_, hne, ?_, rfl⟩ <;> simp [submit_survey, hid, hc]

theorem submit_valid_inserts_once_witness :
    let payload : SubmitPayload :=
      { survey_id := "major-topics-001"
        answers := [[("question_id", .str "q1"), ("answer", .str "5")]] }
    let req : RequestCtx := { userAgent := some "UA", clientHost := some "1.2.3.4" }
    let cd : String → SurveyDoc → Except String String := fun _ _ => .ok "doc-1"
    (submit_survey cd payload req).1 = .ok "doc-1" ∧ "doc-1" ≠ "" ∧
    (submit_survey cd payload req).2 = [("surveyresponse", mkDoc payload req)] ∧
    (mkDoc payload req).answers = payload.answers :=
  submit_valid_inserts_once _ _ _ _ rfl rfl (by decide)

/-- C2: for every submission payload whose survey_id differs from the
catalog survey's identifier, submit fails with HTTP 400 and message
"Invalid survey id", and the persistence collaborator receives zero
calls. -/
theorem submit_wrong_id_rejected
    (create_document : String → SurveyDoc → Except String String)
    (payload : SubmitPayload) (req : RequestCtx)
    (hid : payload.survey_id ≠ PRESET_SURVEY.survey_id) :
    (submit_survey create_document payload req).1 =
      .httpError 400 "Invalid survey id" ∧
    (submit_survey create_document payload req).2 = [] := by
  constructor <;> simp [submit_survey, hid]

theorem submit_wrong_id_rejected_witness :
    let payload : SubmitPayload := { survey_id := "wrong-id", answers := [] }
    let req : RequestCtx := { userAgent := none, clientHost := none }
    let cd : String → SurveyDoc → Except String String := fun _ _ => .ok "doc-1"
    (submit_survey cd payload req).1 = .httpError 400 "Invalid survey id" ∧
    (submit_survey cd payload req).2 = [] :=
  submit_wrong_id_rejected _ _ _ (by decide)

/-- C3: every error raised by the persistence collaborator during the
insert is caught and re-surfaced as HTTP 500 with message "Database
error: " followed by the underlying message; exactly one insert was
attempted (no retry) and no success is reported (not swallowed). -/
theorem submit_storage_error_surfaced
    (create_document : String → SurveyDoc → Except String String)
    (payload : SubmitPayload) (req : RequestCtx) (e : String)
    (hid : payload.survey_id = PRESET_SURVEY.survey_id)
    (hc : create_document "surveyresponse" (mkDoc payload req) = .error e) :
    (submit_survey create_document payload req).1 =
      .httpError 500 ("Database error: " ++ e) ∧
    (submit_survey create_document payload req).2 =
      [("surveyresponse", mkDoc payload req)] := by
  constructor <;> simp [submit_survey, hid, hc]

theorem submit_storage_error_surfaced_witness :
    let payload : SubmitPayload := { survey_id := "major-topics-001", answers := [] }
    let req : RequestCtx := { userAgent := none, clientHost := none }
    let cd : String → SurveyDoc → Except String String :=
      fun _ _ => .error "db not configured"
    (submit_survey cd payload req).1 =
      .httpError 500 ("Database error: " ++ "db not configured") ∧
    (submit_survey cd payload req).2 = [("surveyresponse", mkDoc payload req)] :=
  submit_storage_error_surfaced _ _ _ _ rfl rfl

/-- C4: get_survey takes no input and always returns the fixed preset
survey: identifier "major-topics-001" and exactly eight questions, the
same structure on every call (it is a constant function of a unit
argument), with no error path. -/
theorem get_survey_fixed :
    get_survey () = PRESET_SURVEY ∧
    (get_survey ()).survey_id = "major-topics-001" ∧
    (get_survey ()).questions.length = 8 :=
  ⟨rfl, rfl, rfl⟩

/-- C5: every question of the catalog survey whose type tag is "single"
has an option list that is present and non-empty. -/
theorem preset_single_choice_has_options (q : SurveyQuestion)
    (hq : q ∈ PRESET_SURVEY.questions) (ht : q.type = "single") :
    ∃ opts, q.options = some opts ∧ opts ≠ [] := by
  fin_cases hq <;> simp_all [PRESET_SURVEY]

theorem preset_single_choice_has_options_witness :
    let q : SurveyQuestion :=
      { id := "q2", topic := "technology", text := "Which platform do you use the most?",
        type := "single", options := some ["iOS", "Android", "Windows", "macOS", "Linux"] }
    ∃ opts, q.options = some opts ∧ opts ≠ [] :=
  preset_single_choice_has_options _ (by decide) rfl

/-- C9: submit stores the user-agent header and client network address
taken from the request context in the persisted record, and when both are
absent the submission still succeeds and the record stores them as
null. -/
theorem submit_metadata_optional
    (create_document : String → SurveyDoc → Except String String)
    (payload : SubmitPayload) (i : String)
    (hid : payload.survey_id = PRESET_SURVEY.survey_id)
    (hc : create_document "surveyresponse"
            (mkDoc payload { userAgent := none, clientHost := none }) = .ok i) :
    (∀ req : RequestCtx, (mkDoc payload req).user_agent = req.userAgent ∧
      (mkDoc payload req).ip = req.clientHost) ∧
    (submit_survey create_document payload
        { userAgent := none, clientHost := none }).1 = .ok i ∧
    (submit_survey create_document payload
        { userAgent := none, clientHost := none }).2 =
      [("surveyresponse", mkDoc payload { userAgent := none, clientHost := none })] ∧
    (mkDoc payload { userAgent := none, clientHost := none }).user_agent = none ∧
    (mkDoc payload { userAgent := none, clientHost := none }).ip = none := by
  refine ⟨fun req => ⟨rfl, rfl⟩, ?_, ?_, rfl, rfl⟩ <;> simp [submit_survey, hid, hc]

theorem submit_metadata_optional_witness :
    let payload : SubmitPayload := { survey_id := "major-topics-001", answers := [] }
    let cd : String → SurveyDoc → Except String String := fun _ _ => .ok "doc-1"
    (∀ req : RequestCtx, (mkDoc payload req).user_agent = req.userAgent ∧
      (mkDoc payload req).ip = req.clientHost) ∧
    (submit_survey cd payload { userAgent := none, clientHost := none }).1 = .ok "doc-1" ∧
    (submit_survey cd payload { userAgent := none, clientHost := none }).2 =
      [("surveyresponse", mkDoc payload { userAgent := none, clientHost := none })] ∧
    (mkDoc payload { userAgent := none, clientHost := none }).user_agent = none ∧
    (mkDoc payload { userAgent := none, clientHost := none }).ip = none :=
  submit_metadata_optional _ _ _ rfl rfl

/-- The body carries a survey identifier that is present and a string. -/
def surveyIdWellFormed (fields : List (String × Json)) : Prop :=
  ∃ s, lookupField fields "survey_id" = some (Json.str s)

/-- The body carries an answers field that is present and a sequence of
mapping objects. -/
def answersWellFormed (fields : List (String × Json)) : Prop :=
  ∃ xs answers, lookupField fields "answers" = some (Json.arr xs) ∧
    allObjs xs = some answers

/-- C6: when the survey identifier is absent or not a string, or the
answers field is absent or not a sequence of mapping objects, the request
fails with a validation error surfaced to the client before the handler's
business logic runs: no insert call is made and no success is returned. -/
theorem validation_error_precedes_handler
    (create_document : String → SurveyDoc → Except String String)
    (fields : List (String × Json)) (req : RequestCtx)
    (h : ¬ surveyIdWellFormed fields ∨ ¬ answersWellFormed fields) :
    (∃ msg, parseSubmitPayload (.obj fields) = .error msg) ∧
    (handle_submit create_document (.obj fields) req).2 = [] ∧
    ∀ i, (handle_submit create_document (.obj fields) req).1 ≠ .ok i := by
  have hparse : ∃ msg, parseSubmitPayload (.obj fields) = .error msg := by
    unfold parseSubmitPayload
    cases hsid : lookupField fields "survey_id" with
    | none => simp [hsid]
    | some v =>
      cases v with
      | str s =>
        rcases h with h | h
        · exact absurd ⟨s, hsid⟩ h
        · cases hans : lookupField fields "answers" with
          | none => simp [hsid, hans]
          | some w =>
            cases w with
            | arr xs =>
              cases hobj : allObjs xs with
              | none => simp [hsid, hans, hobj]
              | some answers => exact absurd ⟨xs, answers, hans, hobj⟩ h
            | null => simp [hsid, hans]
            | bool b => simp [hsid, hans]
            | num n => simp [hsid, hans]
            | str t => simp [hsid, hans]
            | obj fs => simp [hsid, hans]
      | null => simp [hsid]
      | bool b => simp [hsid]
      | num n => simp [hsid]
      | arr xs => simp [hsid]
      | obj fs => simp [hsid]
  obtain ⟨msg, hmsg⟩ := hparse
  refine ⟨⟨msg, hmsg⟩, ?_, ?_⟩ <;> simp [handle_submit, hmsg]

theorem validation_error_precedes_handler_witness :
    let cd : String → SurveyDoc → Except String String := fun _ _ => .ok "doc-1"
    let req : RequestCtx := { userAgent := none, clientHost := none }
    (∃ msg, parseSubmitPayload (.obj []) = .error msg) ∧
    (handle_submit cd (.obj []) req).2 = [] ∧
    ∀ i, (handle_submit cd (.obj []) req).1 ≠ .ok i :=
  validation_error_precedes_handler _ [] _
    (Or.inl (by simp [surveyIdWellFormed, lookupField]))

/-- C7: the diagnostics handler is a total function (never raises: every
failure state of the persistence collaborator maps to a response body
whose backend field still reports success), and the database status
strings reported for the failure modes — collaborator module unavailable,
collaborator present but uninitialized, present and connected, present
but error on listing collections — are pairwise distinct. -/
theorem checkHealth_total_distinct_statuses
    (m : DbModule) (env : Env) (db : DbHandle) (l : List String) (e : String) :
    (test_database m env).backend = "✅ Running" ∧
    (test_database .importMissing env).database =
      "❌ Database module not found (run enable-database first)" ∧
    (test_database (.loaded none) env).database =
      "⚠️  Available but not initialized" ∧
    (db.list_collection_names = .ok l →
      (test_database (.loaded (some db)) env).database = "✅ Connected & Working") ∧
    (db.list_collection_names = .error e →
      (test_database (.loaded (some db)) env).database =
        "⚠️  Connected but Error: " ++ e.take 50) ∧
    ("❌ Database module not found (run enable-database first)" ≠
        "⚠️  Available but not initialized" ∧
      "❌ Database module not found (run enable-database first)" ≠
        "✅ Connected & Working" ∧
      "⚠️  Available but not initialized" ≠ "✅ Connected & Working" ∧
      "⚠️  Connected but Error: " ++ e.take 50 ≠
        "❌ Database module not found (run enable-database first)" ∧
      "⚠️  Connected but Error: " ++ e.take 50 ≠
        "⚠️  Available but not initialized" ∧
      "⚠️  Connected but Error: " ++ e.take 50 ≠ "✅ Connected & Working") := by
  refine ⟨?_, by simp [test_database], by simp [test_database], ?_, ?_,
    by decide, by decide, by decide,
    append_ne_of_data_take _ _ _ (by decide),
    append_ne_of_data_take _ _ _ (by decide),
    append_ne_of_data_take _ _ _ (by decide)⟩
  · cases m with
    | importMissing => rfl
    | importFails msg => rfl
    | loaded o =>
      cases o with
      | none => rfl
      | some handle =>
        cases hl : handle.list_collection_names <;> simp [test_database, hl]
  · intro h
    simp [test_database, h]
  · intro h
    simp [test_database, h]

theorem checkHealth_total_distinct_statuses_witness :
    let env : Env := { DATABASE_URL := none, DATABASE_NAME := none }
    let db : DbHandle := { name := some "surveys", list_collection_names := .ok ["surveyresponse"] }
    (test_database (.loaded (some db)) env).backend = "✅ Running" ∧
    (test_database .importMissing env).database =
      "❌ Database module not found (run enable-database first)" ∧
    (test_database (.loaded none) env).database =
      "⚠️  Available but not initialized" ∧
    (db.list_collection_names = .ok ["surveyresponse"] →
      (test_database (.loaded (some db)) env).database = "✅ Connected & Working") ∧
    (db.list_collection_names = .error "timeout" →
      (test_database (.loaded (some db)) env).database =
        "⚠️  Connected but Error: " ++ ("timeout").take 50) ∧
    ("❌ Database module not found (run enable-database first)" ≠
        "⚠️  Available but not initialized" ∧
      "❌ Database module not found (run enable-database first)" ≠
        "✅ Connected & Working" ∧
      "⚠️  Available but not initialized" ≠ "✅ Connected & Working" ∧
      "⚠️  Connected but Error: " ++ ("timeout").take 50 ≠
        "❌ Database module not found (run enable-database first)" ∧
      "⚠️  Connected but Error: " ++ ("timeout").take 50 ≠
        "⚠️  Available but not initialized" ∧
      "⚠️  Connected but Error: " ++ ("timeout").take 50 ≠ "✅ Connected & Working") :=
  checkHealth_total_distinct_statuses _ _ _ ["surveyresponse"] "timeout"

/-- C8: when the diagnostics endpoint successfully lists collections, the
returned collections field is exactly the first ten names of the store's
listing, in the store's order (hence at most ten entries). -/
theorem checkHealth_collections_first_ten
    (db : DbHandle) (env : Env) (l : List String)
    (h : db.list_collection_names = .ok l) :
    (test_database (.loaded (some db)) env).collections = l.take 10 ∧
    (test_database (.loaded (some db)) env).collections.length ≤ 10 := by
  have hc : (test_database (.loaded (some db)) env).collections = l.take 10 := by
    simp [test_database, h]
  refine ⟨hc, ?_⟩
  rw [hc, List.length_take]
  exact min_le_left _ _

theorem checkHealth_collections_first_ten_witness :
    let env : Env := { DATABASE_URL := some "mongodb://localhost", DATABASE_NAME := some "surveys" }
    let db : DbHandle :=
      { name := some "surveys"
        list_collection_names := .ok ["a", "b", "c", "d", "e", "f", "g", "h", "i", "j", "k", "l"] }
    (test_database (.loaded (some db)) env).collections =
      (["a", "b", "c", "d", "e", "f", "g", "h", "i", "j", "k", "l"] : List String).take 10 ∧
    (test_database (.loaded (some db)) env).collections.length ≤ 10 :=
  checkHealth_collections_first_ten _ _ _ rfl

/-- C10: the database_url and database_name fields of the diagnostics
response are determined solely by the two environment variables — the
env-var check at the end overwrites whatever the connection check wrote —
so a connected store with unset env variables still reads "Not Set". -/
theorem checkHealth_env_flags_overwrite
    (m : DbModule) (env : Env) (db : DbHandle) (l : List String)
    (h : db.list_collection_names = .ok l) :
    (test_database m env).database_url =
      some (if truthy env.DATABASE_URL then "✅ Set" else "❌ Not Set") ∧
    (test_database m env).database_name =
      some (if truthy env.DATABASE_NAME then "✅ Set" else "❌ Not Set") ∧
    (test_database (.loaded (some db))
        { DATABASE_URL := none, DATABASE_NAME := none }).connection_status =
      "Connected" ∧
    (test_database (.loaded (some db))
        { DATABASE_URL := none, DATABASE_NAME := none }).database_url =
      some "❌ Not Set" ∧
    (test_database (.loaded (some db))
        { DATABASE_URL := none, DATABASE_NAME := none }).database_name =
      some "❌ Not Set" := by
  refine ⟨rfl, rfl, ?_, rfl, rfl⟩
  simp [test_database, h]

theorem checkHealth_env_flags_overwrite_witness :
    let env : Env := { DATABASE_URL := none, DATABASE_NAME := none }
    let db : DbHandle := { name := some "surveys", list_collection_names := .ok [] }
    (test_database (.loaded (some db)) env).database_url =
      some (if truthy env.DATABASE_URL then "✅ Set" else "❌ Not Set") ∧
    (test_database (.loaded (some db)) env).database_name =
      some (if truthy env.DATABASE_NAME then "✅ Set" else "❌ Not Set") ∧
    (test_database (.loaded (some db)) env).connection_status = "Connected" ∧
    (test_database (.loaded (some db)) env).database_url = some "❌ Not Set" ∧
    (test_database (.loaded (some db)) env).database_name = some "❌ Not Set" :=
  checkHealth_env_flags_overwrite _ _ _ [] rfl

end SurveyBackend
